import Mathlib

/-!
Verification development for the YouTube-Anchor pipeline
(`action_main.py`): a shallow embedding of the fallback generator, the
transcript cascade, the content parser, the delivery sink and the
per-item orchestration loop, together with theorems about the spec's
testable properties.

External collaborators (the generative backend, the captioning API, the
media downloader, the speech synthesiser, the HTTP endpoint, the file
system) are modelled as oracles supplied through explicit environment
records; an oracle value of `Except.error msg` stands for the Python
call raising an exception with message `msg`, and `Except.ok v` for the
call returning `v`.  All embedded functions are total, which is the
shallow-embedding rendering of "no exception escapes this component":
every internal `try/except` of the source is an explicit `match` on the
oracle here.
-/

namespace YTAnchor

/-- Python exception payloads are modelled by their message string. -/
abbrev PyErr := String

/-- Version of `Except.isOk` as a plain definition, so hypotheses "this call raised"
can be written decidably as `exOk e = false`. -/
def exOk {ε α : Type} : Except ε α → Bool
  | .ok _ => true
  | .error _ => false

/-! ### Python string primitives

The source manipulates Python `str` values with `in`, `split`,
`replace`, `strip` and three `re.sub` patterns.  We model them over
`List Char` (a Lean `String` is a list of characters) with
fuel-bounded recursion so that every function reduces by `decide`.
All call sites in the source pass fixed non-empty separators, and the
fuel `s.length + 1` is always sufficient because each found occurrence
consumes at least one character. -/

/-- Tests whether `sep` is a prefix of `s` (character-wise). -/
def isPrefixL : List Char → List Char → Bool
  | [], _ => true
  | _ :: _, [] => false
  | a :: as, b :: bs => a = b && isPrefixL as bs

/-- First occurrence of the non-empty pattern `sep` in `s`:
`some (pre, post)` with `s = pre ++ sep ++ post`, scanning left to
right, or `none` when `sep` does not occur. -/
def findSplitL (sep : List Char) : List Char → Option (List Char × List Char)
  | [] => none
  | c :: rest =>
    if isPrefixL sep (c :: rest) then some ([], (c :: rest).drop sep.length)
    else
      match findSplitL sep rest with
      | some (pre, post) => some (c :: pre, post)
      | none => none

/-- Python `sep in s` (for the non-empty literal separators the source
uses). -/
def containsL (sep s : List Char) : Bool := (findSplitL sep s).isSome

/-- Fuel-bounded body of Python `s.split(sep)`. -/
def splitOnFuel (sep : List Char) : Nat → List Char → List (List Char)
  | 0, s => [s]
  | fuel + 1, s =>
    match findSplitL sep s with
    | none => [s]
    | some (pre, post) => pre :: splitOnFuel sep fuel post

/-- Python `s.split(sep)` for non-empty `sep`. -/
def splitOnL (sep s : List Char) : List (List Char) :=
  splitOnFuel sep (s.length + 1) s

/-- Fuel-bounded body of Python `s.replace(old, new)`. -/
def replaceFuel (old new : List Char) : Nat → List Char → List Char
  | 0, s => s
  | fuel + 1, s =>
    match findSplitL old s with
    | none => s
    | some (pre, post) => pre ++ new ++ replaceFuel old new fuel post

/-- Python `s.replace(old, new)` for non-empty `old`. -/
def replaceAllL (old new s : List Char) : List Char :=
  replaceFuel old new (s.length + 1) s

/-- The whitespace characters stripped by Python `str.strip()`
(ASCII subset: space, tab, newline, carriage return, vertical tab,
form feed). -/
def isPySpace (c : Char) : Bool :=
  c = ' ' || c = '\t' || c = '\n' || c = '\r' ||
  c = Char.ofNat 11 || c = Char.ofNat 12

/-- Python `s.strip()`. -/
def stripL (s : List Char) : List Char :=
  ((s.dropWhile isPySpace).reverse.dropWhile isPySpace).reverse

/-- Scan forward to just past the next `closer`, failing at a newline or
at end of input — the lazy-dot regex `.*?` of the source does not match
`\n`, so a span whose closer lies beyond a newline is not a match. -/
def findCloseL (closer : Char) : List Char → Option (List Char)
  | [] => none
  | c :: rest =>
    if c = closer then some rest
    else if c = '\n' then none
    else findCloseL closer rest

/-- Fuel-bounded body of Python `re.sub(opener .*? closer, '', s)`:
remove every lazily-matched `opener...closer` span, scanning left to
right and resuming after each removed span. -/
def removeSpansFuel (opener closer : Char) : Nat → List Char → List Char
  | 0, s => s
  | _ + 1, [] => []
  | fuel + 1, c :: rest =>
    if c = opener then
      match findCloseL closer rest with
      | some rest' => removeSpansFuel opener closer fuel rest'
      | none => c :: removeSpansFuel opener closer fuel rest
    else c :: removeSpansFuel opener closer fuel rest

/-- Python `re.sub` of one `opener .*? closer` pattern with the empty
replacement. -/
def removeSpansL (opener closer : Char) (s : List Char) : List Char :=
  removeSpansFuel opener closer (s.length + 1) s

/-- Python `sub in s` lifted to `String`. -/
def pyContains (s sub : String) : Bool := containsL sub.data s.data

/-- Python `s.split(sep)` lifted to `String`. -/
def pySplit (s sep : String) : List String :=
  (splitOnL sep.data s.data).map fun l => String.mk l

/-- Python `s.replace(old, new)` lifted to `String`. -/
def pyReplace (s old new : String) : String :=
  String.mk (replaceAllL old.data new.data s.data)

/-- Python `s.strip()` lifted to `String`. -/
def pyStrip (s : String) : String := String.mk (stripL s.data)

/-! ### Model fallback selector (`generate_with_fallback`, lines 47-111)

The backend oracle maps a model name to the outcome of
`GenerativeModel(name).generate_content(prompt).text` for the one
prompt of the enclosing call site.  The source classifies the caught
exception message (429/quota, 404/not found, 503/overloaded, other)
only to choose a log line and a sleep duration; every class executes
`continue`, so the classification does not affect the returned value
and is omitted from the value-level model.  The loop body never
re-raises, and after the loop the function returns `None`. -/

/-- The master priority list as Python builds it: the source writes
thirteen string literals, but the first two (`'gemini-2.5-flash'` on
line 55 and `'gemini-2.0-flash-exp'` on line 56) are adjacent with no
separating comma, so Python's adjacent-string-literal concatenation
fuses them into a single twelve-element list whose head is an invalid
identifier. -/
def models_to_try : List String :=
  [ "gemini-2.5-flash" ++ "gemini-2.0-flash-exp",
    "gemini-1.5-pro",
    "gemini-1.5-flash",
    "gemini-2.5-flash-lite",
    "gemini-flash-lite-latest",
    "gemini-1.5-flash-8b",
    "gemini-2.5-flash-preview-09-2025",
    "gemini-2.5-flash-lite-preview-09-2025",
    "gemma-3-27b-it",
    "gemma-3-9b-it",
    "gemma-3-4b-it",
    "gemma-3-1b-it" ]

/-- The thirteen entries as visually authored in the source (lines
53-74), i.e. the list the author intended before Python's
adjacent-string-literal concatenation merged the first two.  This
definition follows the spec's description of the authored list and is
used only to compare against `models_to_try`. -/
def models_as_authored : List String :=
  [ "gemini-2.5-flash",
    "gemini-2.0-flash-exp",
    "gemini-1.5-pro",
    "gemini-1.5-flash",
    "gemini-2.5-flash-lite",
    "gemini-flash-lite-latest",
    "gemini-1.5-flash-8b",
    "gemini-2.5-flash-preview-09-2025",
    "gemini-2.5-flash-lite-preview-09-2025",
    "gemma-3-27b-it",
    "gemma-3-9b-it",
    "gemma-3-4b-it",
    "gemma-3-1b-it" ]

/-- Embedding of `generate_with_fallback` over an explicit candidate list: first
successful response wins; any exception falls through to the next
candidate; an exhausted list yields `None`. -/
def generate_with_fallback (backend : String → Except PyErr String) :
    List String → Option String
  | [] => none
  | m :: rest =>
    match backend m with
    | .ok text => some text
    | .error _ => generate_with_fallback backend rest

/-- Embedding of `generate_with_fallback` instrumented with the list of model names
attempted, in attempt order. -/
def generate_with_fallback_trace (backend : String → Except PyErr String) :
    List String → Option String × List String
  | [] => (none, [])
  | m :: rest =>
    match backend m with
    | .ok text => (some text, [m])
    | .error _ =>
      let r := generate_with_fallback_trace backend rest
      (r.1, m :: r.2)

/-! ### Ledger (`load_history` lines 114-122, `save_history` lines 124-134)

The in-memory ledger is a Python `set`; its contents are modelled as a
duplicate-free `List String` used only through membership and insert.
`save_history` receives `list(history)` — CPython enumerates a `set` in
an unspecified, hash-dependent order, so the embedding of
`save_history` takes that enumeration list as its argument: any
duplicate-free listing of the set's elements is a possible input. -/

/-- The ledger file contents written by `save_history(history)`:
`history_list = list(history)`, truncated to its last 500 elements
(`history_list[-500:]`) when longer than 500. -/
def save_history (history_list : List String) : List String :=
  if history_list.length > 500 then
    history_list.drop (history_list.length - 500)
  else history_list

/-- Embedding of `load_history`: the `HISTORY_FILE` oracle is `none` when the file
does not exist, `some (.error msg)` when reading or JSON-decoding it
raises, and `some (.ok vids)` for a successfully parsed
`{"videos": vids}` object.  Returns the contents of the resulting
Python set. -/
def load_history (file : Option (Except PyErr (List String))) : List String :=
  match file with
  | none => []
  | some (.error _) => []
  | some (.ok vids) => vids

/-- One parsed `feeds.json` entry: either a bare URL string or an
object, of which only an optional `"url"` field is consumed. -/
inductive FeedEntry where
  | str (s : String)
  | obj (url : Option String)

/-- The parsed shape of `feeds.json` (the source's comment: "Handle
both list of strings and list of objects"). -/
inductive FeedsData where
  | strings (l : List String)
  | objects (l : List (Option String))

/-- The module-level `YOUTUBE_FEEDS` computation (lines 34-44): a
parse failure degrades to the empty list; a list of objects is mapped
through `[item["url"] for item in data if "url" in item]`; a list of
strings (including the empty list, for which `data` is falsy and the
`else` branch returns it unchanged) is taken as is. -/
def load_feeds : Except PyErr FeedsData → List String
  | .error _ => []
  | .ok (.strings l) => l
  | .ok (.objects l) => l.filterMap id

/-! ### Content synthesizer (`analyze_video`, lines 255-311) -/

def TELEGRAM_MARKER : String := "---TELEGRAM---"

def PODCAST_MARKER : String := "---PODCAST---"

/-- The two-part result dict of `analyze_video`. -/
structure SynthesizedContent where
  telegram : String
  podcast : String
deriving DecidableEq

/-- The three `re.sub` cleanups applied to the podcast script (lines
301-303), in source order: `\*.*?\*`, then `\[.*?\]`, then `\(.*?\)`,
each replaced by the empty string. -/
def pyCleanup (s : String) : String :=
  String.mk (removeSpansL '(' ')' (removeSpansL '[' ']' (removeSpansL '*' '*' s.data)))

/-- The parsing tail of `analyze_video` (lines 288-311), applied to the
backend's response: `if not text` (both `None` and the empty string are
falsy) yields `None`; a response missing either marker yields `None`;
otherwise the response is split on the PODCAST marker, the first part
(TELEGRAM marker occurrences removed, stripped) becomes the telegram
text with the link line appended, and the second part (stripped, then
cleaned of emphasis/bracket/parenthesis spans) becomes the podcast
script.  An `IndexError` on `parts[1]` would be caught and mapped to
`None`, hence the final catch-all arm. -/
def parse_response (text? : Option String) (video_url : String) :
    Option SynthesizedContent :=
  match text? with
  | none => none
  | some text =>
    if text = "" then none
    else if !pyContains text TELEGRAM_MARKER || !pyContains text PODCAST_MARKER then
      none
    else
      match pySplit text PODCAST_MARKER with
      | p0 :: p1 :: _ =>
        let telegram_txt := pyStrip (pyReplace p0 TELEGRAM_MARKER "")
        let podcast_txt := pyCleanup (pyStrip p1)
        some ⟨telegram_txt ++ "\n\n🔗 " ++ video_url, podcast_txt⟩
      | _ => none

/-- The prompt built by `analyze_video` (lines 257-283).  The
transcript is truncated to its first 50000 characters
(`transcript[:50000]`).  The instruction text is reproduced with its
line structure; the exact indentation whitespace of the Python
triple-quoted literal is immaterial to every property proved here,
since the backend is an oracle. -/
def build_prompt (transcript channel_name video_title _video_url : String) : String :=
  "You are a high-energy, joyful Radio RJ who loves tech. You are talking to your listeners (friends).\n" ++
  "VIDEO: \"" ++ video_title ++ "\" by " ++ channel_name ++ "\n" ++
  "TRANSCRIPT: " ++ transcript.take 50000 ++ "\n" ++
  "YOUR TASK:\n" ++
  "1. TELEGRAM POST (Short & Punchy): 1 Hook Line. 2 Short Bullet points on the \"Why\". No filler. Just value.\n" ++
  "2. PODCAST SCRIPT (The Radio Vibe): ENERGY high, LANGUAGE simple, OPENING instant hook, ENDING \"Check the link, it's wild!\", LENGTH strictly under 45 seconds spoken.\n" ++
  "OUTPUT FORMAT:\n" ++
  "---TELEGRAM---\n[Your short text]\n---PODCAST---\n[Your script]\n"

/-- Embedding of `analyze_video`: build the prompt, run the fallback selector over
the master list against the backend oracle (which maps a model name and
a prompt to that attempt's outcome), and parse the response. -/
def analyze_video (backend : String → String → Except PyErr String)
    (transcript channel_name video_title video_url : String) :
    Option SynthesizedContent :=
  parse_response
    (generate_with_fallback
      (fun m => backend m (build_prompt transcript channel_name video_title video_url))
      models_to_try)
    video_url

/-! ### Transcript acquirer (`get_transcript`, lines 136-253) -/

/-- The VTT-junk cleaning applied to one kept caption line (line 188-
191): remove `<c>`, `</c>`, turn `&nbsp;` into a space, then strip
`[...]` and `(...)` spans. -/
def cleanVttLine (line : List Char) : List Char :=
  removeSpansL '(' ')' (removeSpansL '[' ']'
    (replaceAllL "&nbsp;".data " ".data
      (replaceAllL "</c>".data [] (replaceAllL "<c>".data [] line))))

/-- A caption-file line is kept when it holds no `-->` timing cue, no
`WEBVTT` header and is non-blank (`line.strip()` truthy) — line 187. -/
def keepVttLine (line : List Char) : Bool :=
  !containsL "-->".data line && !containsL "WEBVTT".data line && stripL line != []

/-- The VTT parse of tier 2 (lines 184-192): split the file into lines,
keep the caption lines, clean each, and join with single spaces.
(Python `splitlines` also splits on rarer line terminators; caption
files use `\n`.) -/
def clean_vtt (content : String) : String :=
  String.mk
    (List.intercalate [' ']
      ((splitOnL ['\n'] content.data).filterMap fun l =>
        if keepVttLine l then some (cleanVttLine l) else none))

/-- Oracles for one `get_transcript` call.
* `apiFetch` — tier 1, `YouTubeTranscriptApi.get_transcript`: the list
  of caption `entry['text']` values, or the raised exception.  (Whether
  `cookies.txt` exists only selects which overload is called; both
  yield the same shaped result and are one oracle here.)
* `vttFile` — tier 2, the `yt_dlp` subtitle run plus directory scan:
  `.ok (some content)` when a matching `.vtt` file was produced (with
  its text), `.ok none` when no file appeared, `.error` when anything
  in the tier raised.
* `audioDownload` — tier 3, the `yt_dlp` audio run: `.ok exists` where
  `exists` says whether the final `.mp3` is on disk, `.error` when the
  download, upload or polling raised.
* `tier3Backend` — the generative backend for the transcription prompt
  (model name ↦ attempt outcome), consumed through
  `generate_with_fallback` exactly as in the source. -/
structure TranscriptEnv where
  apiFetch : Except PyErr (List String)
  vttFile : Except PyErr (Option String)
  audioDownload : Except PyErr Bool
  tier3Backend : String → Except PyErr String

/-- The tier-3 block (lines 201-253): `None` when the audio run raised
or the `.mp3` is missing, otherwise whatever the fallback selector
produced for the transcription prompt — returned as is, even when that
is `None`. -/
def tier3_result (env : TranscriptEnv) : Option String :=
  match env.audioDownload with
  | .error _ => none
  | .ok false => none
  | .ok true => generate_with_fallback env.tier3Backend models_to_try

/-- Embedding of `get_transcript`, instrumented with the list of tiers entered, in
order.  Tier 1 success returns `" ".join(...)` immediately (even when
the join is empty).  Tier 2 returns its cleaned text only when truthy
(non-empty); an empty parse, a missing file or an exception all fall
through to tier 3. -/
def get_transcript_t (env : TranscriptEnv) : Option String × List Nat :=
  match env.apiFetch with
  | .ok entries => (some (String.intercalate " " entries), [1])
  | .error _ =>
    match env.vttFile with
    | .error _ => (tier3_result env, [1, 2, 3])
    | .ok none => (tier3_result env, [1, 2, 3])
    | .ok (some content) =>
      let found := clean_vtt content
      if found = "" then (tier3_result env, [1, 2, 3]) else (some found, [1, 2])

/-- Embedding of `get_transcript`: the returned value alone. -/
def get_transcript (env : TranscriptEnv) : Option String :=
  (get_transcript_t env).1

/-- Tier 2 "fails": its `yt_dlp` run raised, produced no subtitle file,
or the parsed caption text is empty (falsy `found_text`). -/
def tier2Fails (env : TranscriptEnv) : Bool :=
  match env.vttFile with
  | .error _ => true
  | .ok none => true
  | .ok (some content) => clean_vtt content = ""

/-- Tier 3 "fails": it raised, the audio file is missing, or every
backend candidate failed so the fallback selector returned `None`. -/
def tier3Fails (env : TranscriptEnv) : Bool :=
  match env.audioDownload with
  | .error _ => true
  | .ok false => true
  | .ok true => (generate_with_fallback env.tier3Backend models_to_try).isNone

/-! ### Audio renderer (`generate_audio`, lines 313-322) -/

/-- Embedding of `generate_audio`: the `edge_tts` call either saves `story.mp3` and
the function returns `True`, or raises and the function returns
`False`. -/
def generate_audio (tts : Except PyErr Unit) : Bool :=
  match tts with
  | .ok _ => true
  | .error _ => false

/-! ### Delivery sink (`send_to_telegram`, lines 324-356) -/

/-- Oracles for one `send_to_telegram` call.
* `postMessage` — the `sendMessage` HTTP post, keyed by the
  `parse_mode` sent (`some "Markdown"` first, `none` on the plain-text
  retry): the response status code, or a raised transport error.
* `postVoice` — the `sendVoice` HTTP post: its status code (never
  inspected by the source) or a raised transport error.
* `audioFileExists` — `Path(audio_file).exists()`. -/
structure SendEnv where
  postMessage : Option String → Except PyErr Nat
  postVoice : Except PyErr Nat
  audioFileExists : Bool

/-- Embedding of `send_to_telegram`: post the message with Markdown; on a 400
status retry once with `parse_mode = None`; `raise_for_status()` on the
final response (any 4xx/5xx raises, caught by the outer handler →
`False`); then, when an audio file was passed and exists, post the
voice attachment — its response status is ignored, though a raised
transport error is caught by the same outer handler → `False` — and
return `True`. -/
def send_to_telegram (env : SendEnv) (audio_file : Option String) : Bool :=
  match env.postMessage (some "Markdown") with
  | .error _ => false
  | .ok st =>
    match (if st = 400 then env.postMessage none else .ok st : Except PyErr Nat) with
    | .error _ => false
    | .ok st2 =>
      if 400 ≤ st2 ∧ st2 < 600 then false
      else
        match audio_file with
        | none => true
        | some _ =>
          if env.audioFileExists then
            match env.postVoice with
            | .error _ => false
            | .ok _ => true
          else true

/-- The text-message leg of `send_to_telegram` succeeds: the (possibly
retried) `sendMessage` post returned a response and
`raise_for_status()` does not raise on it. -/
def textPostOk (env : SendEnv) : Bool :=
  match env.postMessage (some "Markdown") with
  | .error _ => false
  | .ok st =>
    match (if st = 400 then env.postMessage none else .ok st : Except PyErr Nat) with
    | .error _ => false
    | .ok st2 => !(400 ≤ st2 ∧ st2 < 600 : Bool)

/-! ### Per-item orchestration (`main`, lines 389-408) -/

/-- One new-video record built from a feed entry (line 378-383). -/
structure VideoItem where
  id : String
  title : String
  url : String
  channel : String
deriving DecidableEq

/-- Oracles for processing one feed item. -/
structure ItemEnv where
  tenv : TranscriptEnv
  analyzeBackend : String → String → Except PyErr String
  tts : Except PyErr Unit
  send : SendEnv

/-- Observable outcome of one loop iteration: the in-memory ledger
afterwards, whether delivery succeeded, whether `send_to_telegram` was
called and with which `audio_file` argument, and whether
`save_history` was invoked. -/
structure ItemResult where
  history : List String
  delivered : Bool
  sendCalled : Bool
  sendAudioArg : Option String
  savedHistory : Bool
deriving DecidableEq

/-- The body of the per-video loop (lines 389-408): a falsy transcript
(`None` or `""`) skips the item; a `None` synthesis result skips the
item; then audio is rendered, delivery is attempted with
`"story.mp3" if audio_ok else None`, and only a successful delivery
adds the id to the ledger and persists it. -/
def process_item (env : ItemEnv) (history : List String) (video : VideoItem) :
    ItemResult :=
  match get_transcript env.tenv with
  | none => ⟨history, false, false, none, false⟩
  | some transcript =>
    if transcript = "" then ⟨history, false, false, none, false⟩
    else
      match analyze_video env.analyzeBackend transcript video.channel video.title video.url with
      | none => ⟨history, false, false, none, false⟩
      | some _content =>
        let audio_ok := generate_audio env.tts
        let audio_file : Option String := if audio_ok then some "story.mp3" else none
        let success := send_to_telegram env.send audio_file
        if success then
          ⟨history.insert video.id, true, true, audio_file, true⟩
        else
          ⟨history, false, true, audio_file, false⟩

/-! ### Helper lemmas -/

/-- The split helper never returns an empty list of parts, whatever the fuel. -/
theorem splitOnFuel_ne_nil (sep : List Char) (fuel : Nat) (s : List Char) :
    splitOnFuel sep fuel s ≠ [] := by
  cases fuel with
  | zero => simp [splitOnFuel]
  | succ n =>
    simp only [splitOnFuel]
    split <;> simp

/-- When the separator occurs in `s`, `split` returns at least two
parts (so the source's `parts[1]` cannot raise). -/
theorem containsL_splitOnL (sep s : List Char) (h : containsL sep s = true) :
    ∃ p0 p1 rest, splitOnL sep s = p0 :: p1 :: rest := by
  unfold containsL at h
  unfold splitOnL
  rcases hf : findSplitL sep s with _ | ⟨pre, post⟩
  · rw [hf] at h; simp at h
  · refine ⟨pre, ?_⟩
    simp only [splitOnFuel, hf]
    rcases hne : splitOnFuel sep s.length post with _ | ⟨p1, rest⟩
    · exact absurd hne (splitOnFuel_ne_nil _ _ _)
    · exact ⟨p1, rest, rfl⟩

/-- String-level corollary of `containsL_splitOnL`. -/
theorem pySplit_two_parts (s sep : String) (h : pyContains s sep = true) :
    ∃ p0 p1 rest, pySplit s sep = p0 :: p1 :: rest := by
  obtain ⟨q0, q1, qr, hq⟩ := containsL_splitOnL sep.data s.data h
  exact ⟨String.mk q0, String.mk q1, qr.map (fun l => String.mk l),
    by simp [pySplit, hq]⟩

/-- If every candidate's attempt raises, the fallback loop exhausts the
list and returns `None`. -/
theorem generate_with_fallback_all_fail (backend : String → Except PyErr String) :
    ∀ models : List String, (∀ m ∈ models, exOk (backend m) = false) →
      generate_with_fallback backend models = none := by
  intro models
  induction models with
  | nil => intro _; rfl
  | cons m rest ih =>
    intro h
    have hm := h m (by simp)
    rcases hb : backend m with e | t
    · simp only [generate_with_fallback, hb]
      exact ih fun x hx => h x (by simp [hx])
    · rw [hb] at hm; simp [exOk] at hm

/-- A failed tier 3 contributes `None`. -/
theorem tier3Fails_result (env : TranscriptEnv) (h : tier3Fails env = true) :
    tier3_result env = none := by
  unfold tier3Fails at h
  unfold tier3_result
  rcases ha : env.audioDownload with e | b
  · rfl
  · cases b
    · rfl
    · rw [ha] at h
      simpa [Option.isNone_iff_eq_none] using h

/-- If the (possibly retried) text post passes `raise_for_status` and
the voice post does not raise a transport error, `send_to_telegram`
returns `True` — the voice response's status is never consulted. -/
theorem send_to_telegram_text_ok (env : SendEnv) (audio_file : Option String)
    (s : Nat) (hok : textPostOk env = true) (hv : env.postVoice = .ok s) :
    send_to_telegram env audio_file = true := by
  unfold textPostOk at hok
  unfold send_to_telegram
  rcases h1 : env.postMessage (some "Markdown") with e | st
  · rw [h1] at hok; simp at hok
  · simp only [h1] at hok ⊢
    rcases h2 : (if st = 400 then env.postMessage none else Except.ok st :
        Except PyErr Nat) with e2 | st2
    · simp only [h2] at hok; simp at hok
    · simp only [h2] at hok ⊢
      have hcond : ¬(400 ≤ st2 ∧ st2 < 600) := by
        intro hc
        rw [decide_eq_true hc] at hok
        simp at hok
      rw [if_neg hcond]
      rcases audio_file with _ | a
      · rfl
      · rcases hex : env.audioFileExists
        · simp [hex]
        · simp [hex, hv]

/-! ### Claims -/

/-- C4: for every prompt payload, if every candidate model attempt
fails (raises), the fallback selector returns the definitive failure
value `None`.  Exceptions never escape the selector's boundary: every
loop body is wrapped in the broad `except Exception` handler, which the
embedding expresses by the selector being a total function of the
backend oracle. -/
theorem C4_all_candidates_fail_returns_none
    (backend : String → Except PyErr String)
    (h : ∀ m ∈ models_to_try, exOk (backend m) = false) :
    generate_with_fallback backend models_to_try = none :=
  generate_with_fallback_all_fail backend models_to_try h

/-- C4 witness: a backend whose every attempt raises a quota error
makes the selector return `None`. -/
theorem C4_witness :
    generate_with_fallback (fun _ => .error "429 quota exceeded") models_to_try
      = none :=
  C4_all_candidates_fail_returns_none _ (by decide)

/-- C5: for every candidate list and backend, if the candidates before
`m` all fail and `m` succeeds with `t`, then the attempt trace is
exactly the failing prefix followed by `m` — every earlier candidate
was attempted in list order, each individual failure continued the
loop, and `m`'s text is returned with no later candidate attempted. -/
theorem C5_first_success_wins (backend : String → Except PyErr String)
    (pre post : List String) (m t : String)
    (hpre : ∀ x ∈ pre, exOk (backend x) = false)
    (hm : backend m = .ok t) :
    generate_with_fallback_trace backend (pre ++ m :: post) = (some t, pre ++ [m]) := by
  induction pre with
  | nil => simp only [List.nil_append, generate_with_fallback_trace, hm]
  | cons x xs ih =>
    have hx := hpre x (by simp)
    rcases hb : backend x with e | s
    · simp [generate_with_fallback_trace, hb,
        ih fun y hy => hpre y (by simp [hy])]
    · rw [hb] at hx; simp [exOk] at hx

/-- C5 witness backend: candidates `"a"` and `"b"` fail, `"c"`
succeeds, `"d"` is never reached. -/
def c5Backend : String → Except PyErr String :=
  fun m => if m = "c" then .ok "first success" else .error "404 not found"

/-- C5 witness: with two failing candidates before the succeeding one,
the trace is exactly the first three candidates in order and the third
candidate's text is returned. -/
theorem C5_witness :
    generate_with_fallback_trace c5Backend (["a", "b"] ++ "c" :: ["d"]) =
      (some "first success", ["a", "b"] ++ ["c"]) :=
  C5_first_success_wins c5Backend ["a", "b"] ["d"] "c" "first success"
    (by decide) rfl

/-- C6: the master priority list as built has one fewer element than
the thirteen entries visually authored, its first element is the
concatenation `'gemini-2.5-flashgemini-2.0-flash-exp'` of the two
comma-less adjacent literals, and its remaining elements are the
authored entries from the third onwards. -/
theorem C6_model_list_concatenation_defect :
    models_to_try.length + 1 = models_as_authored.length ∧
    models_to_try.head? = some "gemini-2.5-flashgemini-2.0-flash-exp" ∧
    models_to_try.head? =
      some (models_as_authored.getD 0 "" ++ models_as_authored.getD 1 "") ∧
    models_to_try.tail = models_as_authored.drop 2 := by
  decide

/-- C7: whenever the tier-1 caption API yields caption entries, the
transcript acquirer returns their space-join immediately and the trace
shows that tiers 2 and 3 were never entered. -/
theorem C7_tier1_short_circuit (env : TranscriptEnv) (entries : List String)
    (h : env.apiFetch = .ok entries) :
    get_transcript_t env = (some (String.intercalate " " entries), [1]) := by
  simp only [get_transcript_t, h]

/-- C7 witness environment: tier 1 succeeds; the tier-2 and tier-3
oracles would fail loudly if consulted. -/
def c7Env : TranscriptEnv :=
  { apiFetch := .ok ["hello", "world"]
    vttFile := .error "unreached"
    audioDownload := .error "unreached"
    tier3Backend := fun _ => .error "unreached" }

/-- C7 witness: the two caption entries are joined with a space and
only tier 1 runs. -/
theorem C7_witness : get_transcript_t c7Env = (some "hello world", [1]) := by
  rw [C7_tier1_short_circuit c7Env ["hello", "world"] rfl]
  decide

/-- C8: if tier 1 raises, tier 2 fails (raises, finds no subtitle file,
or parses an empty caption text) and tier 3 fails (raises, finds no
audio file, or exhausts every backend candidate), the transcript
acquirer returns `None`.  No exception escapes: the embedding is a
total function of the tier oracles, mirroring the per-tier
`try/except` blocks of the source. -/
theorem C8_all_tiers_fail_null (env : TranscriptEnv)
    (h1 : exOk env.apiFetch = false)
    (h2 : tier2Fails env = true)
    (h3 : tier3Fails env = true) :
    get_transcript env = none := by
  have ht3 := tier3Fails_result env h3
  unfold get_transcript get_transcript_t
  rcases ha : env.apiFetch with e | entries
  · unfold tier2Fails at h2
    rcases hv : env.vttFile with ev | ov
    · simp [ht3]
    · rcases ov with _ | content
      · simp [ht3]
      · rw [hv] at h2
        simp only [decide_eq_true_eq] at h2
        simp [h2, ht3]
  · rw [ha] at h1; simp [exOk] at h1

/-- C8 witness environment: the caption API raises, the subtitle
downloader produces no file, and the audio download raises. -/
def c8Env : TranscriptEnv :=
  { apiFetch := .error "no transcript available"
    vttFile := .ok none
    audioDownload := .error "download blocked"
    tier3Backend := fun _ => .error "429 quota" }

/-- C8 witness: with all three tiers failing the result is `None`. -/
theorem C8_witness : get_transcript c8Env = none :=
  C8_all_tiers_fail_null c8Env (by decide) (by decide) (by decide)

/-- C9: a missing ledger file and an unreadable/undecodable ledger file
both make history loading return the empty set, and a missing or
malformed `feeds.json` makes the feed list empty.  Neither error aborts
startup: both loaders are total functions that catch their oracle's
error case. -/
theorem C9_startup_degrades_to_empty_defaults :
    load_history none = [] ∧
    (∀ e : PyErr, load_history (some (.error e)) = []) ∧
    (∀ e : PyErr, load_feeds (.error e) = []) :=
  ⟨rfl, fun _ => rfl, fun _ => rfl⟩

/-- C10: (1) whenever the text-message post succeeds (after the
optional plain-text retry) and the voice-attachment upload returns a
response — of any HTTP status, since the source never checks it —
`send_to_telegram` returns `True`; (2) consequently an item whose text
post succeeds is delivered and recorded in the ledger even when the
voice upload's status is a rejection. -/
theorem C10_voice_response_unchecked :
    (∀ (env : SendEnv) (audio_file : Option String) (s : Nat),
        textPostOk env = true → env.postVoice = .ok s →
        send_to_telegram env audio_file = true) ∧
    (∀ (env : ItemEnv) (history : List String) (v : VideoItem) (t : String)
        (s : Nat),
        get_transcript env.tenv = some t → t ≠ "" →
        analyze_video env.analyzeBackend t v.channel v.title v.url ≠ none →
        textPostOk env.send = true → env.send.postVoice = .ok s →
        (process_item env history v).delivered = true ∧
        v.id ∈ (process_item env history v).history) := by
  refine ⟨fun env af s hok hv => send_to_telegram_text_ok env af s hok hv, ?_⟩
  intro env history v t s ht htne hcontent hok hv
  unfold process_item
  simp only [ht]
  rw [if_neg htne]
  rcases hc : analyze_video env.analyzeBackend t v.channel v.title v.url with _ | c
  · exact absurd hc hcontent
  · simp only []
    rw [send_to_telegram_text_ok env.send _ s hok hv]
    exact ⟨rfl, List.mem_insert_self v.id history⟩

/-- C10 witness environment: transcript and synthesis succeed, audio
renders, the text post returns 200, and the voice upload is rejected
with status 500 (never checked). -/
def c10Env : ItemEnv :=
  { tenv :=
      { apiFetch := .ok ["hello", "world"]
        vttFile := .error "unreached"
        audioDownload := .error "unreached"
        tier3Backend := fun _ => .error "unreached" }
    analyzeBackend := fun _ _ => .ok "---TELEGRAM---Post---PODCAST---Script"
    tts := .ok ()
    send :=
      { postMessage := fun _ => .ok 200
        postVoice := .ok 500
        audioFileExists := true } }

/-- C10 witness: the voice upload is rejected with a 500 status, yet
the item is delivered and its id is recorded in the ledger. -/
theorem C10_witness :
    (process_item c10Env [] ⟨"vid-1", "T", "U", "Ch"⟩).delivered = true ∧
    "vid-1" ∈ (process_item c10Env [] ⟨"vid-1", "T", "U", "Ch"⟩).history :=
  C10_voice_response_unchecked.2 c10Env [] ⟨"vid-1", "T", "U", "Ch"⟩
    "hello world" 500 (by decide) (by decide) (by decide) (by decide) rfl

/-- C1 counterexample environment: transcript and synthesis succeed,
but the speech-synthesis call raises, so audio rendering fails. -/
def c1Env : ItemEnv :=
  { tenv :=
      { apiFetch := .ok ["hello", "world"]
        vttFile := .error "unreached"
        audioDownload := .error "unreached"
        tier3Backend := fun _ => .error "unreached" }
    analyzeBackend := fun _ _ => .ok "---TELEGRAM---Post---PODCAST---Script"
    tts := .error "edge-tts unavailable"
    send :=
      { postMessage := fun _ => .ok 200
        postVoice := .ok 200
        audioFileExists := false } }

/-- C1 counterexample: an item whose audio rendering fails is still
delivered — `send_to_telegram` is called (with `None` in place of the
audio file), the delivery succeeds, the ledger is written and gains the
item's id.  This refutes the claim that a failing audio stage
early-exits with no delivery call and no ledger write. -/
theorem C1_counterexample :
    generate_audio c1Env.tts = false ∧
    (process_item c1Env [] ⟨"vid-a", "T", "U", "Ch"⟩).sendCalled = true ∧
    (process_item c1Env [] ⟨"vid-a", "T", "U", "Ch"⟩).sendAudioArg = none ∧
    (process_item c1Env [] ⟨"vid-a", "T", "U", "Ch"⟩).delivered = true ∧
    (process_item c1Env [] ⟨"vid-a", "T", "U", "Ch"⟩).savedHistory = true ∧
    "vid-a" ∈ (process_item c1Env [] ⟨"vid-a", "T", "U", "Ch"⟩).history := by
  decide

/-- C1 (amended): a falsy transcript or a `None` synthesis result
early-exits the item with no delivery call and no ledger write; a
failed delivery leaves the ledger untouched and unsaved; but a failed
audio rendering does not early-exit — delivery is still attempted,
with `None` as the audio argument — and a successful delivery records
the id and persists the ledger. -/
theorem C1_stage_isolation_amended (env : ItemEnv) (history : List String)
    (v : VideoItem) :
    ((get_transcript env.tenv = none ∨ get_transcript env.tenv = some "") →
      process_item env history v = ⟨history, false, false, none, false⟩) ∧
    (∀ t, get_transcript env.tenv = some t → t ≠ "" →
      analyze_video env.analyzeBackend t v.channel v.title v.url = none →
      process_item env history v = ⟨history, false, false, none, false⟩) ∧
    ((process_item env history v).delivered = false →
      (process_item env history v).history = history ∧
      (process_item env history v).savedHistory = false) ∧
    ((process_item env history v).sendCalled = true →
      generate_audio env.tts = false →
      (process_item env history v).sendAudioArg = none) ∧
    ((process_item env history v).delivered = true →
      (process_item env history v).history = history.insert v.id ∧
      (process_item env history v).savedHistory = true) := by
  rcases ht : get_transcript env.tenv with _ | t
  · have hp : process_item env history v = ⟨history, false, false, none, false⟩ := by
      unfold process_item; simp [ht]
    rw [hp]; simp [ht]
  · by_cases hte : t = ""
    · subst hte
      have hp : process_item env history v = ⟨history, false, false, none, false⟩ := by
        unfold process_item; simp [ht]
      rw [hp]; simp [ht]
    · rcases hc : analyze_video env.analyzeBackend t v.channel v.title v.url
        with _ | c
      · have hp : process_item env history v = ⟨history, false, false, none, false⟩ := by
          unfold process_item; simp [ht, hte, hc]
        rw [hp]; simp [ht, hte, hc]
      · cases hs : send_to_telegram env.send
            (if generate_audio env.tts then some "story.mp3" else none) with
        | false =>
          have hp : process_item env history v =
              ⟨history, false, true,
                if generate_audio env.tts then some "story.mp3" else none, false⟩ := by
            unfold process_item; simp [ht, hte, hc, hs]
          rw [hp]
          refine ⟨?_, ?_, fun _ => ⟨rfl, rfl⟩, ?_, ?_⟩
          · intro h
            rcases h with h | h
            · simp at h
            · simp only [Option.some.injEq] at h
              exact absurd h hte
          · intro t' ht' _ hc'
            obtain rfl : t = t' := by simpa using ht'
            rw [hc] at hc'
            simp at hc'
          · intro _ haud
            simp [haud]
          · intro h; simp at h
        | true =>
          have hp : process_item env history v =
              ⟨history.insert v.id, true, true,
                if generate_audio env.tts then some "story.mp3" else none, true⟩ := by
            unfold process_item; simp [ht, hte, hc, hs]
          rw [hp]
          refine ⟨?_, ?_, ?_, ?_, fun _ => ⟨rfl, rfl⟩⟩
          · intro h
            rcases h with h | h
            · simp at h
            · simp only [Option.some.injEq] at h
              exact absurd h hte
          · intro t' ht' _ hc'
            obtain rfl : t = t' := by simpa using ht'
            rw [hc] at hc'
            simp at hc'
          · intro h; simp at h
          · intro _ haud
            simp [haud]

/-- C1 witness environment: all three transcript tiers fail, so the
item is skipped at the first stage. -/
def c1SkipEnv : ItemEnv :=
  { tenv :=
      { apiFetch := .error "blocked"
        vttFile := .ok none
        audioDownload := .ok false
        tier3Backend := fun _ => .error "quota" }
    analyzeBackend := fun _ _ => .error "quota"
    tts := .ok ()
    send :=
      { postMessage := fun _ => .ok 200
        postVoice := .ok 200
        audioFileExists := true } }

/-- C1 witness: a failed transcript stage early-exits with no delivery
call and no ledger write. -/
theorem C1_witness :
    process_item c1SkipEnv [] ⟨"vid-b", "T", "U", "Ch"⟩ =
      ⟨[], false, false, none, false⟩ :=
  (C1_stage_isolation_amended c1SkipEnv [] ⟨"vid-b", "T", "U", "Ch"⟩).1
    (Or.inl (by decide))

/-- Distinct id strings for the ledger-eviction scenario: `mkId n` is
the string of `n` copies of `'a'`, injective by length. -/
def mkId (n : Nat) : String := String.mk (List.replicate n 'a')

/-- The id constructor `mkId` is injective. -/
theorem mkId_inj {a b : Nat} (h : mkId a = mkId b) : a = b := by
  have h2 : (List.replicate a 'a').length = (List.replicate b 'a').length :=
    congrArg (fun s : String => s.data.length) h
  simpa using h2

/-- C2 counterexample: insert the 501 distinct ids
`mkId 0, mkId 1, …, mkId 500` in that order, so `mkId 0` is the oldest
and the 500 most-recently-added ids are `(… .map mkId).drop 1`.  The
reversed insertion list is a legitimate enumeration of the resulting
Python `set` (CPython's `list(set)` order is hash-dependent, not
insertion order), and under it the persisted ledger still contains the
oldest id `mkId 0`, which is not among the 500 most-recently-added —
refuting the claim that the persisted ids are precisely the 500
most-recently-added with the oldest evicted first. -/
theorem C2_counterexample :
    (((List.range 501).map mkId).reverse).Perm ((List.range 501).map mkId) ∧
    mkId 0 ∈ save_history (((List.range 501).map mkId).reverse) ∧
    mkId 0 ∉ ((List.range 501).map mkId).drop 1 := by
  refine ⟨List.reverse_perm _, ?_, ?_⟩
  · have hsplit : ((List.range 501).map mkId).reverse
        = mkId 500 :: ((List.range 500).map mkId).reverse := by
      rw [show (501 : Nat) = 500 + 1 from rfl, List.range_succ, List.map_append,
        List.reverse_append]
      simp
    unfold save_history
    rw [if_pos (by simp)]
    have h1 : (((List.range 501).map mkId).reverse).length - 500 = 1 := by simp
    rw [h1, hsplit]
    simp only [List.drop_succ_cons, List.drop_zero]
    rw [List.mem_reverse]
    exact List.mem_map.mpr ⟨0, by simp, rfl⟩
  · intro hmem
    rw [show (501 : Nat) = 500 + 1 from rfl, List.range_succ_eq_map] at hmem
    simp only [List.map_cons, List.drop_succ_cons, List.drop_zero, List.map_map,
      List.mem_map, Function.comp] at hmem
    obtain ⟨k, _, hk⟩ := hmem
    have := mkId_inj hk
    omega

/-- C2 (amended): after 501 distinct adds, whatever enumeration order
`list(history)` yields, the persisted ledger is a contiguous suffix of
that enumeration (hence a duplicate-free subset of the added ids) of
length exactly 500 — but which id is dropped depends on the
enumeration order, not on insertion recency. -/
theorem C2_ledger_cap_amended (enumeration : List String) :
    save_history enumeration <:+ enumeration ∧
    (500 < enumeration.length → (save_history enumeration).length = 500) := by
  constructor
  · unfold save_history
    split
    · exact List.drop_suffix _ _
    · exact List.suffix_refl _
  · intro h
    unfold save_history
    rw [if_pos (by omega), List.length_drop]
    omega

/-- C2 witness: an enumeration of 501 distinct ids persists exactly
500 of them. -/
theorem C2_witness : (save_history ((List.range 501).map mkId)).length = 500 :=
  (C2_ledger_cap_amended ((List.range 501).map mkId)).2 (by simp)

/-- C3 counterexample: a backend response with both markers present
but out of order — `---PODCAST---` before `---TELEGRAM---` — is not
treated as malformed: the parser returns a non-null result (the marker
order is never checked; the split on the PODCAST marker simply yields
an empty short post and a script still containing the TELEGRAM
marker). -/
theorem C3_counterexample :
    pyContains "---PODCAST---The script---TELEGRAM---The post" TELEGRAM_MARKER
      = true ∧
    pyContains "---PODCAST---The script---TELEGRAM---The post" PODCAST_MARKER
      = true ∧
    parse_response (some "---PODCAST---The script---TELEGRAM---The post")
      "http://u" ≠ none := by
  decide

/-- C3 (amended): synthesis returns `None` exactly when the backend
response lacks one of the two markers (an empty response also yields
`None`, and also lacks both markers); when both markers are present the
result is non-null, regardless of their order.  For a response with the
markers in the intended order the short post and the script are
returned with the markers stripped, as the concrete instance shows. -/
theorem C3_marker_parsing_amended :
    (∀ (text url : String),
        parse_response (some text) url = none ↔
          (pyContains text TELEGRAM_MARKER && pyContains text PODCAST_MARKER)
            = false) ∧
    parse_response (some "---TELEGRAM---\nHello\n---PODCAST---\nHi there")
        "http://u"
      = some ⟨"Hello\n\n🔗 http://u", "Hi there"⟩ := by
  constructor
  · intro text url
    by_cases he : text = ""
    · subst he
      exact ⟨fun _ => by decide, fun _ => rfl⟩
    · simp only [parse_response]
      rw [if_neg he]
      cases hT : pyContains text TELEGRAM_MARKER with
      | false => simp [hT]
      | true =>
        cases hP : pyContains text PODCAST_MARKER with
        | false => simp [hP]
        | true =>
          obtain ⟨p0, p1, rest, hsplit⟩ := pySplit_two_parts text PODCAST_MARKER hP
          simp [hsplit]
  · decide

end YTAnchor
